import Mathlib

/-!
Verification of the messaging service data layer (FastAPI routes over a
relational store).  The store is modelled as lists of rows; opaque ids
(UUIDs in the source) are modelled as `Nat`, timestamps as `Nat`.  Each
route handler of `app/routes.py` becomes a pure function over the store;
an `HTTPException` becomes an `ApiError` value, and a request that raises
before `commit` leaves the store unchanged (the per-request session is
discarded / rolled back), which the `run*` wrappers make explicit.
-/

/-- A row of the `users` table: `models.User(id, email, name)`. -/
structure User where
  id : Nat
  email : String
  name : String
deriving DecidableEq

/-- A row of the `messages` table: `models.Message`. -/
structure Message where
  id : Nat
  sender_id : Nat
  subject : Option String
  content : String
  timestamp : Nat
deriving DecidableEq

/-- A row of the `message_recipients` table: `models.MessageRecipient`.
The defaults `read = false`, `read_at = none` mirror the schema
(`schemas.MessageRecipientBase` / the data model: rows are created unread
with no read timestamp; `create_message` sets neither field). -/
structure MessageRecipient where
  id : Nat
  message_id : Nat
  recipient_id : Nat
  read : Bool := false
  read_at : Option Nat := none
deriving DecidableEq

/-- The relational store visible to the handlers. -/
structure Store where
  users : List User
  messages : List Message
  recipients : List MessageRecipient
deriving DecidableEq

/-- An `HTTPException`: status 404 (`notFound`) or 400 (`badRequest`),
with its `detail` string. -/
inductive ApiError where
  | notFound (detail : String)
  | badRequest (detail : String)
deriving DecidableEq

/-- Request body `schemas.MessageCreate`. -/
structure MessageCreate where
  sender_id : Nat
  subject : Option String
  content : String
  recipient_ids : List Nat
deriving DecidableEq

/-- Response item `schemas.MessageInboxItem` (message fields plus the
recipient entry id, its read state, and the eagerly loaded sender). -/
structure MessageInboxItem where
  id : Nat
  sender_id : Nat
  subject : Option String
  content : String
  timestamp : Nat
  recipient_entry_id : Nat
  read : Bool
  read_at : Option Nat
  sender : Option User
deriving DecidableEq

/-- One entry of the `get_message_recipient` response: the dict built in
the handler's loop. -/
structure RecipientStatus where
  recipient_entry_id : Nat
  recipient_id : Nat
  recipient_name : String
  recipient_email : String
  read : Bool
  read_at : Option Nat
deriving DecidableEq

/-- `db.query(User).filter(User.id == uid).first()`. -/
def findUser (db : Store) (uid : Nat) : Option User :=
  db.users.find? (fun u => u.id == uid)

/-- The recipient-insertion loop of `create_message`: for each
`recipient_id` in order, look the user up; on the first miss, roll back
and raise 404 naming the offending id; otherwise stage one
`MessageRecipient` row (id generated, here `entryIds i` for the i-th
recipient). -/
def insertRecipients (db : Store) (messageId : Nat) (entryIds : Nat → Nat) :
    List Nat → Nat → Except ApiError (List MessageRecipient)
  | [], _ => .ok []
  | rid :: rest, i =>
    match findUser db rid with
    | none =>
      .error (.notFound ("Recipient with ID " ++ toString rid ++ " not found."))
    | some _ =>
      match insertRecipients db messageId entryIds rest (i + 1) with
      | .error e => .error e
      | .ok rows =>
        .ok ({ id := entryIds i, message_id := messageId, recipient_id := rid,
               read := false, read_at := none } :: rows)

/-- `create_message` (`POST /messages/`): checks the sender, builds the
message row, rejects an empty recipient list with 400, runs the recipient
loop, and commits the message together with its recipient rows.
`now` is the generated timestamp, `newMessageId` the generated message id,
`entryIds i` the generated id of the i-th recipient entry. -/
def create_message (now newMessageId : Nat) (entryIds : Nat → Nat)
    (md : MessageCreate) (db : Store) : Except ApiError (Message × Store) :=
  match findUser db md.sender_id with
  | none => .error (.notFound "Sender not found.")
  | some _ =>
    let dbMessage : Message :=
      { id := newMessageId, sender_id := md.sender_id, subject := md.subject,
        content := md.content, timestamp := now }
    if md.recipient_ids.isEmpty then
      .error (.badRequest "Message must have at least one recipient.")
    else
      match insertRecipients db newMessageId entryIds md.recipient_ids 0 with
      | .error e => .error e
      | .ok rows =>
        .ok (dbMessage,
             { db with messages := db.messages ++ [dbMessage],
                       recipients := db.recipients ++ rows })

/-- The store after a `create_message` request: on success the committed
store, on failure the original one (the staged rows are never committed:
explicit rollback on a missing recipient, session discard otherwise). -/
def runCreate (now newMessageId : Nat) (entryIds : Nat → Nat)
    (md : MessageCreate) (db : Store) : Store :=
  match create_message now newMessageId entryIds md db with
  | .ok (_, db2) => db2
  | .error _ => db

/-- Replace the first element satisfying `p` by `v` (the effect of
mutating the row returned by `.first()` and committing). -/
def updateFirst (p : α → Bool) (v : α) : List α → List α
  | [] => []
  | x :: xs => if p x then v :: xs else x :: updateFirst p v xs

/-- `mark_message_as_read` (`PATCH /messages/recipients/{id}/read`):
404 if the entry is missing; if it is still unread, set `read := true`
and `read_at := now` and commit; otherwise return it unchanged. -/
def mark_message_as_read (now entryId : Nat) (db : Store) :
    Except ApiError (MessageRecipient × Store) :=
  match db.recipients.find? (fun r => r.id == entryId) with
  | none => .error (.notFound "Message recipient entry not found")
  | some entry =>
    if entry.read then
      .ok (entry, db)
    else
      let updated := { entry with read := true, read_at := some now }
      .ok (updated,
           { db with recipients :=
               updateFirst (fun r => r.id == entryId) updated db.recipients })

/-- The store after a `mark_message_as_read` request. -/
def runMark (now entryId : Nat) (db : Store) : Store :=
  match mark_message_as_read now entryId db with
  | .ok (_, db2) => db2
  | .error _ => db

/-- The inbox join: `query(Message, MessageRecipient).join(... Message.id
== MessageRecipient.message_id)`. -/
def inboxJoin (db : Store) : List (Message × MessageRecipient) :=
  db.messages.flatMap (fun m =>
    (db.recipients.filter (fun r => m.id == r.message_id)).map (fun r => (m, r)))

/-- One `MessageInboxItem` built from a joined row; the sender is the
eagerly loaded `Message.sender` relationship (`None` if absent). -/
def mkInboxItem (db : Store) (m : Message) (r : MessageRecipient) :
    MessageInboxItem :=
  { id := m.id, sender_id := m.sender_id, subject := m.subject,
    content := m.content, timestamp := m.timestamp,
    recipient_entry_id := r.id, read := r.read, read_at := r.read_at,
    sender := findUser db m.sender_id }

/-- `get_inbox_messages` (`GET /users/{id}/inbox`): 404 for an unknown
user; otherwise the handler loops over the joined rows filtered to
`recipient_id == user_id` — but `return result` sits INSIDE the loop, so
the first iteration returns a one-element list, and an empty join falls
through the loop and the Python function returns `None` (modelled as
`Option.none`). -/
def get_inbox_messages (db : Store) (userId : Nat) :
    Except ApiError (Option (List MessageInboxItem)) :=
  match findUser db userId with
  | none => .error (.notFound "User not found.")
  | some _ =>
    match (inboxJoin db).filter (fun p => p.2.recipient_id == userId) with
    | [] => .ok none
    | (m, r) :: _ => .ok (some [mkInboxItem db m r])

/-- `get_unread_inbox_messages` (`GET /users/{id}/inbox/unread`): 404 for
an unknown user; otherwise all joined rows with `recipient_id == user_id`
and `read == false`, each converted to a `MessageInboxItem` (the loop here
is well-formed and returns after it). -/
def get_unread_inbox_messages (db : Store) (userId : Nat) :
    Except ApiError (List MessageInboxItem) :=
  match findUser db userId with
  | none => .error (.notFound "User not found.")
  | some _ =>
    .ok (((inboxJoin db).filter
            (fun p => p.2.recipient_id == userId && p.2.read == false)).map
          (fun p => mkInboxItem db p.1 p.2))

/-- The recipients join of `get_message_recipient`:
`query(MessageRecipient, User).join(User, MessageRecipient.recipient_id ==
User.id)` — an inner join, so a recipient row with no matching user is
dropped. -/
def recipientJoin (db : Store) : List (MessageRecipient × User) :=
  db.recipients.flatMap (fun r =>
    (db.users.filter (fun u => r.recipient_id == u.id)).map (fun u => (r, u)))

/-- `get_message_recipient` (`GET /messages/{id}/recipients`): 404 for an
unknown message; otherwise one `RecipientStatus` per joined
(recipient row, user) pair of that message. -/
def get_message_recipient (db : Store) (messageId : Nat) :
    Except ApiError (List RecipientStatus) :=
  match db.messages.find? (fun m => m.id == messageId) with
  | none => .error (.notFound "Message not found.")
  | some _ =>
    .ok (((recipientJoin db).filter (fun p => p.1.message_id == messageId)).map
          (fun p =>
            { recipient_entry_id := p.1.id, recipient_id := p.2.id,
              recipient_name := p.2.name, recipient_email := p.2.email,
              read := p.1.read, read_at := p.1.read_at }))

/-- The spec invariant: `read_at` is non-null iff `read` is true, for
every recipient row of the store. -/
def readAtInvariant (db : Store) : Prop :=
  ∀ r ∈ db.recipients, r.read_at.isSome = r.read

instance (db : Store) : Decidable (readAtInvariant db) :=
  List.decidableBAll _ _

/-- Stores reachable by the operations that touch recipient rows: any
store with no recipient rows (user and message creation never add any),
closed under `create_message` and `mark_message_as_read` requests. -/
inductive Reachable : Store → Prop where
  | init (users : List User) (messages : List Message) :
      Reachable ⟨users, messages, []⟩
  | send (db : Store) (now newMessageId : Nat) (entryIds : Nat → Nat)
      (md : MessageCreate) :
      Reachable db → Reachable (runCreate now newMessageId entryIds md db)
  | mark (db : Store) (now entryId : Nat) :
      Reachable db → Reachable (runMark now entryId db)

def u1 : User := { id := 1, email := "a@x", name := "A" }
def u2 : User := { id := 2, email := "b@x", name := "B" }
def store0 : Store := { users := [u1, u2], messages := [], recipients := [] }

def store1 : Store :=
  { users := [u1],
    messages := [{ id := 10, sender_id := 1, subject := none, content := "x", timestamp := 0 },
                 { id := 11, sender_id := 1, subject := none, content := "y", timestamp := 0 }],
    recipients := [{ id := 20, message_id := 10, recipient_id := 1 },
                   { id := 21, message_id := 11, recipient_id := 1 }] }

example : ∃ l, get_inbox_messages store1 1 = Except.ok (some l) ∧ l.length = 1 ∧
    ((inboxJoin store1).filter (fun p => p.2.recipient_id == 1)).length = 2 :=
  ⟨_, rfl, rfl, rfl⟩

example : ∃ m db2, create_message 0 100 (fun i => 200 + i)
    { sender_id := 1, subject := none, content := "c", recipient_ids := [2, 2] } store0 =
      Except.ok (m, db2) ∧
    (db2.recipients.filter (fun r => r.message_id == 100 && r.recipient_id == 2)).length = 2 :=
  ⟨_, _, rfl, rfl⟩

example : create_message 0 100 (fun i => 200 + i)
    { sender_id := 5, subject := none, content := "c", recipient_ids := [] } store0 =
      Except.error (ApiError.notFound "Sender not found.") := rfl


/-! Concrete fixtures used by the closed evaluation theorems and the
witnesses: two users, a message, and small request bodies. -/

def uA : User := { id := 1, email := "a@example.com", name := "Alice" }

def uB : User := { id := 2, email := "b@example.com", name := "Bob" }

def storeAB : Store := { users := [uA, uB], messages := [], recipients := [] }

def mHi : Message :=
  { id := 10, sender_id := 1, subject := some "Hi", content := "Hello", timestamp := 0 }

def mHi2 : Message :=
  { id := 11, sender_id := 1, subject := some "Hi2", content := "Hello2", timestamp := 0 }

def storeTwoInbox : Store :=
  { users := [uA], messages := [mHi, mHi2],
    recipients := [{ id := 20, message_id := 10, recipient_id := 1 },
                   { id := 21, message_id := 11, recipient_id := 1 }] }

def rEntry : MessageRecipient := { id := 50, message_id := 10, recipient_id := 2 }

def storeMsg : Store :=
  { users := [uA, uB], messages := [mHi], recipients := [rEntry] }

def mdA2B : MessageCreate :=
  { sender_id := 1, subject := some "Hi", content := "Hello", recipient_ids := [2] }

def mdEmptyA : MessageCreate :=
  { sender_id := 1, subject := none, content := "c", recipient_ids := [] }

def mdEmptyNoSender : MessageCreate :=
  { sender_id := 5, subject := none, content := "c", recipient_ids := [] }

def mdA2Unknown : MessageCreate :=
  { sender_id := 1, subject := none, content := "x", recipient_ids := [2, 7] }

def mdDup : MessageCreate :=
  { sender_id := 1, subject := none, content := "c", recipient_ids := [2, 2] }


theorem insertRecipients_ok (db : Store) (mid : Nat) (eids : Nat → Nat)
    (rids : List Nat) :
    ∀ i, (∀ rid ∈ rids, (findUser db rid).isSome = true) →
      ∃ rows, insertRecipients db mid eids rids i = Except.ok rows ∧
        rows.map (fun row => row.recipient_id) = rids ∧
        ∀ row ∈ rows, row.read = false ∧ row.read_at = none ∧ row.message_id = mid := by
  induction rids with
  | nil => intro i _; exact ⟨[], rfl, rfl, by simp⟩
  | cons rid rest ih =>
    intro i h
    obtain ⟨u, hu⟩ := Option.isSome_iff_exists.mp (h rid (List.mem_cons_self rid rest))
    obtain ⟨rows, hrows, hmap, hprop⟩ :=
      ih (i + 1) (fun r hr => h r (List.mem_cons_of_mem _ hr))
    refine ⟨{ id := eids i, message_id := mid, recipient_id := rid,
              read := false, read_at := none } :: rows, ?_, ?_, ?_⟩
    · simp [insertRecipients, hu, hrows]
    · simp [hmap]
    · intro row hrow
      rcases List.mem_cons.mp hrow with heq | hmem
      · subst heq; exact ⟨rfl, rfl, rfl⟩
      · exact hprop row hmem

theorem insertRecipients_err (db : Store) (mid : Nat) (eids : Nat → Nat)
    (rids : List Nat) :
    ∀ i r0, rids.find? (fun rid => (findUser db rid).isNone) = some r0 →
      insertRecipients db mid eids rids i =
        Except.error (ApiError.notFound
          ("Recipient with ID " ++ toString r0 ++ " not found.")) := by
  induction rids with
  | nil => intro i r0 h; simp at h
  | cons rid rest ih =>
    intro i r0 h
    rw [List.find?_cons] at h
    by_cases hmiss : (findUser db rid).isNone
    · simp only [hmiss] at h
      cases h
      have hnone : findUser db rid = none := Option.isNone_iff_eq_none.mp hmiss
      simp [insertRecipients, hnone]
    · simp only [Bool.not_eq_true] at hmiss
      simp only [hmiss] at h
      cases hx : findUser db rid with
      | none => rw [hx] at hmiss; simp at hmiss
      | some v => simp only [insertRecipients, hx, ih (i + 1) r0 h]

theorem insertRecipients_rows_unread (db : Store) (mid : Nat) (eids : Nat → Nat)
    (rids : List Nat) :
    ∀ i rows, insertRecipients db mid eids rids i = Except.ok rows →
      ∀ row ∈ rows, row.read = false ∧ row.read_at = none := by
  induction rids with
  | nil =>
    intro i rows h row hrow
    simp only [insertRecipients] at h
    cases h
    simp at hrow
  | cons rid rest ih =>
    intro i rows h row hrow
    simp only [insertRecipients] at h
    split at h
    · cases h
    · split at h
      · cases h
      · next rows2 hrec =>
        cases h
        rcases List.mem_cons.mp hrow with heq | hmem
        · subst heq; exact ⟨rfl, rfl⟩
        · exact ih (i + 1) rows2 hrec row hmem

theorem mem_updateFirst (p : α → Bool) (v : α) :
    ∀ l : List α, ∀ x ∈ updateFirst p v l, x = v ∨ x ∈ l := by
  intro l
  induction l with
  | nil => intro x hx; simp [updateFirst] at hx
  | cons y ys ih =>
    intro x hx
    by_cases hy : p y
    · simp only [updateFirst, if_pos hy] at hx
      rcases List.mem_cons.mp hx with h | h
      · exact Or.inl h
      · exact Or.inr (List.mem_cons_of_mem _ h)
    · simp only [updateFirst, if_neg hy] at hx
      rcases List.mem_cons.mp hx with h | h
      · exact Or.inr (by simp [h])
      · rcases ih x h with h2 | h2
        · exact Or.inl h2
        · exact Or.inr (List.mem_cons_of_mem _ h2)

theorem find?_updateFirst (p : α → Bool) (v : α) (hv : p v = true) :
    ∀ l : List α, (l.find? p).isSome = true →
      (updateFirst p v l).find? p = some v := by
  intro l
  induction l with
  | nil => intro h; simp at h
  | cons y ys ih =>
    intro h
    by_cases hy : p y
    · simp [updateFirst, if_pos hy, List.find?_cons_of_pos _ hv]
    · rw [List.find?_cons_of_neg _ hy] at h
      simp only [updateFirst, if_neg hy]
      rw [List.find?_cons_of_neg _ hy]
      exact ih h

theorem mem_inboxJoin (db : Store) (m : Message) (r : MessageRecipient) :
    (m, r) ∈ inboxJoin db ↔
      m ∈ db.messages ∧ r ∈ db.recipients ∧ r.message_id = m.id := by
  simp only [inboxJoin, List.mem_flatMap, List.mem_map, List.mem_filter]
  constructor
  · rintro ⟨m2, hm2, r2, ⟨hr2, hid⟩, heq⟩
    injection heq with h1 h2
    subst h1
    subst h2
    exact ⟨hm2, hr2, (eq_of_beq hid).symm⟩
  · rintro ⟨hm, hr, hid⟩
    exact ⟨m, hm, r, ⟨hr, by simp [hid]⟩, rfl⟩

theorem mem_recipientJoin (db : Store) (r : MessageRecipient) (u : User) :
    (r, u) ∈ recipientJoin db ↔
      r ∈ db.recipients ∧ u ∈ db.users ∧ r.recipient_id = u.id := by
  simp only [recipientJoin, List.mem_flatMap, List.mem_map, List.mem_filter]
  constructor
  · rintro ⟨r2, hr2, u2, ⟨hu2, hid⟩, heq⟩
    injection heq with h1 h2
    subst h1
    subst h2
    exact ⟨hr2, hu2, eq_of_beq hid⟩
  · rintro ⟨hr, hu, hid⟩
    exact ⟨r, hr, u, ⟨hu, by simp [hid]⟩, rfl⟩

theorem create_message_ok_recipients (db : Store) (now mid : Nat)
    (eids : Nat → Nat) (md : MessageCreate) (msg : Message) (db2 : Store)
    (h : create_message now mid eids md db = Except.ok (msg, db2)) :
    ∃ rows, insertRecipients db mid eids md.recipient_ids 0 = Except.ok rows ∧
      db2.recipients = db.recipients ++ rows := by
  simp only [create_message] at h
  split at h
  · cases h
  · split at h
    · cases h
    · split at h
      · cases h
      · next rows hrec =>
        cases h
        exact ⟨rows, hrec, rfl⟩

theorem mark_ok_recipients (db : Store) (now entryId : Nat)
    (e2 : MessageRecipient) (db2 : Store)
    (h : mark_message_as_read now entryId db = Except.ok (e2, db2)) :
    ∀ r ∈ db2.recipients,
      r ∈ db.recipients ∨ (r.read = true ∧ r.read_at.isSome = true) := by
  simp only [mark_message_as_read] at h
  split at h
  · cases h
  · next entry hfind =>
    split at h
    · cases h
      intro r hr
      exact Or.inl hr
    · cases h
      intro r hr
      rcases mem_updateFirst _ _ _ r hr with heq | hmem
      · subst heq
        exact Or.inr ⟨rfl, rfl⟩
      · exact Or.inl hmem

theorem create_message_eq_ok (db : Store) (now mid : Nat) (eids : Nat → Nat)
    (md : MessageCreate) (u : User) (rows : List MessageRecipient)
    (hs : findUser db md.sender_id = some u)
    (hempty : md.recipient_ids.isEmpty = false)
    (hrows : insertRecipients db mid eids md.recipient_ids 0 = Except.ok rows) :
    create_message now mid eids md db =
      Except.ok
        ({ id := mid, sender_id := md.sender_id, subject := md.subject,
           content := md.content, timestamp := now },
         { db with
           messages :=
             db.messages ++
               [{ id := mid, sender_id := md.sender_id, subject := md.subject,
                  content := md.content, timestamp := now }],
           recipients := db.recipients ++ rows }) := by
  simp [create_message, hs, hempty, hrows]

theorem isEmpty_false_of_ne_nil {l : List Nat} (hne : l ≠ []) :
    l.isEmpty = false := by
  cases hlist : l with
  | nil => exact absurd hlist hne
  | cons a t => simp

/-- Claim C3: for an existing sender and a non-empty list of existing
recipients, `create_message` succeeds and the new store holds exactly one
new `Message` and exactly `recipient_ids.length` new `MessageRecipient`
rows, all with `read = false` and `read_at = none`. -/
theorem send_message_success (db : Store) (now mid : Nat) (eids : Nat → Nat)
    (md : MessageCreate) (u : User)
    (hs : findUser db md.sender_id = some u)
    (hne : md.recipient_ids ≠ [])
    (hr : ∀ rid ∈ md.recipient_ids, (findUser db rid).isSome = true) :
    ∃ msg rows db2,
      create_message now mid eids md db = Except.ok (msg, db2) ∧
      msg.id = mid ∧ msg.sender_id = md.sender_id ∧
      db2.users = db.users ∧
      db2.messages = db.messages ++ [msg] ∧
      db2.recipients = db.recipients ++ rows ∧
      rows.length = md.recipient_ids.length ∧
      ∀ row ∈ rows, row.read = false ∧ row.read_at = none := by
  obtain ⟨rows, hrows, hmap, hprop⟩ :=
    insertRecipients_ok db mid eids md.recipient_ids 0 hr
  exact ⟨_, rows, _,
         create_message_eq_ok db now mid eids md u rows hs
           (isEmpty_false_of_ne_nil hne) hrows,
         rfl, rfl, rfl, rfl, rfl,
         by rw [← hmap, List.length_map],
         fun row hrow => ⟨(hprop row hrow).1, (hprop row hrow).2.1⟩⟩

/-- Claim C2 (amended): when the sender resolves to an existing user and
`recipient_ids` is empty, `create_message` fails with the 400 validation
error and the store is unchanged (nothing persists). -/
theorem send_message_empty_recipients (db : Store) (now mid : Nat)
    (eids : Nat → Nat) (md : MessageCreate) (u : User)
    (hs : findUser db md.sender_id = some u)
    (hempty : md.recipient_ids = []) :
    create_message now mid eids md db =
      Except.error (ApiError.badRequest "Message must have at least one recipient.") ∧
    runCreate now mid eids md db = db := by
  have h1 : create_message now mid eids md db =
      Except.error (ApiError.badRequest "Message must have at least one recipient.") := by
    simp [create_message, hs, hempty]
  exact ⟨h1, by simp [runCreate, h1]⟩

/-- Claim C4: when the sender exists but some recipient id resolves to no
user, `create_message` fails with a 404 naming the first offending id (in
the given order) and the store after the request is unchanged. -/
theorem send_message_missing_recipient (db : Store) (now mid : Nat)
    (eids : Nat → Nat) (md : MessageCreate) (u : User) (r0 : Nat)
    (hs : findUser db md.sender_id = some u)
    (hr0 : md.recipient_ids.find? (fun rid => (findUser db rid).isNone) = some r0) :
    create_message now mid eids md db =
      Except.error (ApiError.notFound
        ("Recipient with ID " ++ toString r0 ++ " not found.")) ∧
    runCreate now mid eids md db = db := by
  have hempty : md.recipient_ids.isEmpty = false := by
    cases hlist : md.recipient_ids with
    | nil => rw [hlist] at hr0; simp at hr0
    | cons a l => simp
  have h1 : create_message now mid eids md db =
      Except.error (ApiError.notFound
        ("Recipient with ID " ++ toString r0 ++ " not found.")) := by
    simp [create_message, hs, hempty,
          insertRecipients_err db mid eids md.recipient_ids 0 r0 hr0]
  exact ⟨h1, by simp [runCreate, h1]⟩

/-- Claim C5: `mark_message_as_read` is idempotent — an already-read entry
is returned unchanged (its `read_at` is not moved), and an unread entry is
set to `read = true` with `read_at = now`; marking it again returns the
same entry with the same `read_at`. -/
theorem mark_recipient_read_idempotent (db : Store) (entryId now now2 : Nat)
    (e : MessageRecipient)
    (hfind : db.recipients.find? (fun r => r.id == entryId) = some e) :
    (e.read = true → mark_message_as_read now entryId db = Except.ok (e, db)) ∧
    (e.read = false →
      ∃ db1, mark_message_as_read now entryId db =
          Except.ok ({ e with read := true, read_at := some now }, db1) ∧
        mark_message_as_read now2 entryId db1 =
          Except.ok ({ e with read := true, read_at := some now }, db1)) := by
  constructor
  · intro hread
    simp [mark_message_as_read, hfind, hread]
  · intro hread
    set e2 : MessageRecipient := { e with read := true, read_at := some now } with he2
    refine ⟨{ db with recipients := updateFirst (fun r => r.id == entryId) e2 db.recipients },
            ?_, ?_⟩
    · simp [mark_message_as_read, hfind, hread, he2]
    · have hpe0 := List.find?_some hfind
      have hpe : (e2.id == entryId) = true := hpe0
      have hfind2 : (updateFirst (fun r => r.id == entryId) e2 db.recipients).find?
            (fun r => r.id == entryId) = some e2 :=
        find?_updateFirst (fun r => r.id == entryId) e2 hpe db.recipients
          (by rw [hfind]; rfl)
      simp [mark_message_as_read, hfind2, he2]

/-- Claim C6: in every store reachable by the operations (creation via
`create_message`, update via `mark_message_as_read`), every recipient row
satisfies `read_at` is non-null iff `read` is true. -/
theorem recipient_rows_read_at_iff_read (db : Store) (h : Reachable db) :
    readAtInvariant db := by
  induction h with
  | init users messages => intro r hr; simp at hr
  | send db now mid eids md _ ih =>
    intro r hr
    unfold runCreate at hr
    split at hr
    · next m db2 heq =>
      obtain ⟨rows, hrows, hrec⟩ :=
        create_message_ok_recipients db now mid eids md m db2 heq
      rw [hrec] at hr
      rcases List.mem_append.mp hr with hmem | hmem
      · exact ih r hmem
      · obtain ⟨h1, h2⟩ := insertRecipients_rows_unread db mid eids
          md.recipient_ids 0 rows hrows r hmem
        rw [h1, h2]
        rfl
    · exact ih r hr
  | mark db now entryId _ ih =>
    intro r hr
    unfold runMark at hr
    split at hr
    · next e2 db2 heq =>
      rcases mark_ok_recipients db now entryId e2 db2 heq r hr with hmem | ⟨h1, h2⟩
      · exact ih r hmem
      · rw [h1, h2]
    · exact ih r hr

/-- Claim C8: for an existing user, `get_unread_inbox_messages` succeeds
and its items are exactly those built from a message and a recipient row of
the store joined on `message_id`, with `recipient_id` equal to the user and
`read = false`. -/
theorem unread_inbox_exact (db : Store) (uid : Nat) (u : User)
    (hu : findUser db uid = some u) :
    ∃ items, get_unread_inbox_messages db uid = Except.ok items ∧
      ∀ it, it ∈ items ↔ ∃ m r, m ∈ db.messages ∧ r ∈ db.recipients ∧
        r.message_id = m.id ∧ r.recipient_id = uid ∧ r.read = false ∧
        it = mkInboxItem db m r := by
  refine ⟨((inboxJoin db).filter
      (fun p => p.2.recipient_id == uid && p.2.read == false)).map
      (fun p => mkInboxItem db p.1 p.2), ?_, ?_⟩
  · simp [get_unread_inbox_messages, hu]
  · intro it
    simp only [List.mem_map, List.mem_filter]
    constructor
    · rintro ⟨⟨m, r⟩, ⟨hjoin, hpred⟩, heq⟩
      obtain ⟨hm, hr, hid⟩ := (mem_inboxJoin db m r).mp hjoin
      simp only [Bool.and_eq_true, beq_iff_eq] at hpred
      exact ⟨m, r, hm, hr, hid, hpred.1, hpred.2, heq.symm⟩
    · rintro ⟨m, r, hm, hr, hid, hrid, hread, heq⟩
      refine ⟨(m, r), ⟨(mem_inboxJoin db m r).mpr ⟨hm, hr, hid⟩, ?_⟩, heq.symm⟩
      simp [hrid, hread]

/-- Claim C9: for an existing user that is the recipient of no
`MessageRecipient` row, `get_inbox_messages` returns `none` (the Python
function falls through its empty loop and returns `None`), while
`get_unread_inbox_messages` returns the empty list. -/
theorem inbox_empty_returns_none (db : Store) (uid : Nat) (u : User)
    (hu : findUser db uid = some u)
    (hno : ∀ r ∈ db.recipients, r.recipient_id ≠ uid) :
    get_inbox_messages db uid = Except.ok none ∧
    get_unread_inbox_messages db uid = Except.ok [] := by
  have hf1 : (inboxJoin db).filter (fun p => p.2.recipient_id == uid) = [] := by
    rw [List.filter_eq_nil_iff]
    rintro ⟨m, r⟩ hp
    obtain ⟨_, hr, _⟩ := (mem_inboxJoin db m r).mp hp
    simp [hno r hr]
  have hf2 : (inboxJoin db).filter
      (fun p => p.2.recipient_id == uid && p.2.read == false) = [] := by
    rw [List.filter_eq_nil_iff]
    rintro ⟨m, r⟩ hp
    obtain ⟨_, hr, _⟩ := (mem_inboxJoin db m r).mp hp
    simp [hno r hr]
  constructor
  · simp [get_inbox_messages, hu, hf1]
  · simp only [get_unread_inbox_messages, hu]
    rw [hf2]
    rfl

/-- Claim C10: for an existing message, `get_message_recipient` succeeds
and returns one `RecipientStatus` per recipient row of that message whose
`recipient_id` resolves to an existing user; a row with no matching user is
silently dropped by the inner join rather than causing a failure. -/
theorem recipients_of_exact (db : Store) (mid : Nat) (msg : Message)
    (hm : db.messages.find? (fun m => m.id == mid) = some msg) :
    ∃ res, get_message_recipient db mid = Except.ok res ∧
      ∀ e, e ∈ res ↔ ∃ r u, r ∈ db.recipients ∧ u ∈ db.users ∧
        r.recipient_id = u.id ∧ r.message_id = mid ∧
        e = { recipient_entry_id := r.id, recipient_id := u.id,
              recipient_name := u.name, recipient_email := u.email,
              read := r.read, read_at := r.read_at } := by
  refine ⟨((recipientJoin db).filter (fun p => p.1.message_id == mid)).map
      (fun p => { recipient_entry_id := p.1.id, recipient_id := p.2.id,
                  recipient_name := p.2.name, recipient_email := p.2.email,
                  read := p.1.read, read_at := p.1.read_at }), ?_, ?_⟩
  · simp [get_message_recipient, hm]
  · intro e
    simp only [List.mem_map, List.mem_filter]
    constructor
    · rintro ⟨⟨r, u2⟩, ⟨hjoin, hpred⟩, heq⟩
      obtain ⟨hr, hu2, hid⟩ := (mem_recipientJoin db r u2).mp hjoin
      simp only [beq_iff_eq] at hpred
      exact ⟨r, u2, hr, hu2, hid, hpred, heq.symm⟩
    · rintro ⟨r, u2, hr, hu2, hid, hmid, heq⟩
      refine ⟨(r, u2), ⟨(mem_recipientJoin db r u2).mpr ⟨hr, hu2, hid⟩, ?_⟩, heq.symm⟩
      simp [hmid]

/-- Claim C7 (amended): for a successful send whose `recipient_ids` are
pairwise distinct and whose message id is fresh, the resulting store holds
at most one `MessageRecipient` row per (message, recipient) pair of the
new message. -/
theorem send_message_distinct_recipient_pairs (db : Store) (now mid : Nat)
    (eids : Nat → Nat) (md : MessageCreate) (u : User)
    (hs : findUser db md.sender_id = some u)
    (hne : md.recipient_ids ≠ [])
    (hr : ∀ rid ∈ md.recipient_ids, (findUser db rid).isSome = true)
    (hnd : md.recipient_ids.Nodup)
    (hfresh : ∀ row ∈ db.recipients, row.message_id ≠ mid) :
    ∃ msg db2, create_message now mid eids md db = Except.ok (msg, db2) ∧
      ∀ rid, (db2.recipients.filter
        (fun row => row.message_id == mid && row.recipient_id == rid)).length ≤ 1 := by
  obtain ⟨rows, hrows, hmap, hprop⟩ :=
    insertRecipients_ok db mid eids md.recipient_ids 0 hr
  refine ⟨_, _,
    create_message_eq_ok db now mid eids md u rows hs
      (isEmpty_false_of_ne_nil hne) hrows, ?_⟩
  intro rid
  show ((db.recipients ++ rows).filter
    (fun row => row.message_id == mid && row.recipient_id == rid)).length ≤ 1
  rw [List.filter_append]
  have hold : db.recipients.filter
      (fun row => row.message_id == mid && row.recipient_id == rid) = [] := by
    rw [List.filter_eq_nil_iff]
    intro row hrow
    simp [hfresh row hrow]
  have hq : ∀ row ∈ rows,
      (row.message_id == mid && row.recipient_id == rid) =
        (row.recipient_id == rid) := by
    intro row hrow
    simp [(hprop row hrow).2.2]
  rw [hold, List.nil_append, List.filter_congr hq]
  calc (rows.filter (fun row => row.recipient_id == rid)).length
      = List.countP (fun row => row.recipient_id == rid) rows :=
        (List.countP_eq_length_filter _ rows).symm
    _ = List.countP (fun x => x == rid)
          (rows.map (fun row => row.recipient_id)) := by
        rw [List.countP_map]
        rfl
    _ = List.countP (fun x => x == rid) md.recipient_ids := by rw [hmap]
    _ = md.recipient_ids.count rid := (List.count_eq_countP _ _).symm
    _ ≤ 1 := List.nodup_iff_count_le_one.mp hnd rid

/-- Claim C1 (code bug evaluation): on a store where user 1 has two inbox
rows, the inbox join has two matching rows but `get_inbox_messages` returns
a one-element list — the `return` inside the loop cuts the result short,
contradicting the claim that all matching rows are returned. -/
theorem inbox_early_return_eval :
    ∃ l, get_inbox_messages storeTwoInbox 1 = Except.ok (some l) ∧ l.length = 1 ∧
      ((inboxJoin storeTwoInbox).filter (fun p => p.2.recipient_id == 1)).length = 2 :=
  ⟨_, rfl, rfl, rfl⟩

/-- Claim C2 counterexample: with an empty `recipient_ids` and a sender id
that resolves to no user, `create_message` fails with the 404 sender error,
not with the 400 validation error — the sender check runs first, refuting
the claimed validation order. -/
theorem send_message_empty_recipients_cex :
    create_message 0 100 (fun i => 200 + i) mdEmptyNoSender storeAB =
      Except.error (ApiError.notFound "Sender not found.") ∧
    ∀ s, create_message 0 100 (fun i => 200 + i) mdEmptyNoSender storeAB ≠
      Except.error (ApiError.badRequest s) := by
  have h1 : create_message 0 100 (fun i => 200 + i) mdEmptyNoSender storeAB =
      Except.error (ApiError.notFound "Sender not found.") := rfl
  refine ⟨h1, fun s h => ?_⟩
  rw [h1] at h
  simp at h

/-- Claim C2 witness: the amended theorem applied to a concrete store and
an empty-recipient request from user 1. -/
theorem send_message_empty_recipients_witness :
    findUser storeAB 1 = some uA ∧ mdEmptyA.recipient_ids = [] ∧
    (create_message 0 100 (fun i => 200 + i) mdEmptyA storeAB =
      Except.error (ApiError.badRequest "Message must have at least one recipient.") ∧
     runCreate 0 100 (fun i => 200 + i) mdEmptyA storeAB = storeAB) :=
  ⟨rfl, rfl,
   send_message_empty_recipients storeAB 0 100 (fun i => 200 + i) mdEmptyA uA rfl rfl⟩

/-- Claim C3 witness: the success theorem applied to user 1 sending to
user 2 on a concrete store. -/
theorem send_message_success_witness :
    findUser storeAB 1 = some uA ∧ mdA2B.recipient_ids ≠ [] ∧
    (∀ rid ∈ mdA2B.recipient_ids, (findUser storeAB rid).isSome = true) ∧
    ∃ msg rows db2,
      create_message 1 100 (fun i => 200 + i) mdA2B storeAB = Except.ok (msg, db2) ∧
      msg.id = 100 ∧ msg.sender_id = mdA2B.sender_id ∧
      db2.users = storeAB.users ∧
      db2.messages = storeAB.messages ++ [msg] ∧
      db2.recipients = storeAB.recipients ++ rows ∧
      rows.length = mdA2B.recipient_ids.length ∧
      ∀ row ∈ rows, row.read = false ∧ row.read_at = none :=
  ⟨rfl, by decide, by decide,
   send_message_success storeAB 1 100 (fun i => 200 + i) mdA2B uA rfl
     (by decide) (by decide)⟩

/-- Claim C4 witness: the theorem applied to recipients `[2, 7]` where 7
is unknown, on a concrete store. -/
theorem send_message_missing_recipient_witness :
    findUser storeAB 1 = some uA ∧
    mdA2Unknown.recipient_ids.find?
      (fun rid => (findUser storeAB rid).isNone) = some 7 ∧
    (create_message 0 100 (fun i => 200 + i) mdA2Unknown storeAB =
      Except.error (ApiError.notFound
        ("Recipient with ID " ++ toString 7 ++ " not found.")) ∧
     runCreate 0 100 (fun i => 200 + i) mdA2Unknown storeAB = storeAB) :=
  ⟨rfl, rfl,
   send_message_missing_recipient storeAB 0 100 (fun i => 200 + i) mdA2Unknown uA 7
     rfl rfl⟩

/-- Claim C5 witness: the theorem applied to the unread entry 50 of a
concrete store, marked at time 7 and re-marked at time 9. -/
theorem mark_recipient_read_idempotent_witness :
    storeMsg.recipients.find? (fun r => r.id == 50) = some rEntry ∧
    ((rEntry.read = true →
        mark_message_as_read 7 50 storeMsg = Except.ok (rEntry, storeMsg)) ∧
     (rEntry.read = false →
        ∃ db1, mark_message_as_read 7 50 storeMsg =
            Except.ok ({ rEntry with read := true, read_at := some 7 }, db1) ∧
          mark_message_as_read 9 50 db1 =
            Except.ok ({ rEntry with read := true, read_at := some 7 }, db1))) :=
  ⟨rfl, mark_recipient_read_idempotent storeMsg 50 7 9 rEntry rfl⟩

/-- Claim C6 witness: the invariant evaluated on a store reached by one
send followed by one mark. -/
theorem read_at_iff_read_witness :
    readAtInvariant (runMark 7 200
      (runCreate 1 100 (fun i => 200 + i) mdA2B storeAB)) :=
  recipient_rows_read_at_iff_read _
    (Reachable.mark _ 7 200
      (Reachable.send _ 1 100 (fun i => 200 + i) mdA2B
        (Reachable.init [uA, uB] [])))

/-- Claim C7 counterexample: sending with `recipient_ids = [2, 2]`
succeeds and creates two `MessageRecipient` rows for the same
(message, recipient) pair — the loop performs no de-duplication. -/
theorem send_message_duplicate_pair_cex :
    ∃ msg db2,
      create_message 0 100 (fun i => 200 + i) mdDup storeAB = Except.ok (msg, db2) ∧
      (db2.recipients.filter
        (fun row => row.message_id == 100 && row.recipient_id == 2)).length = 2 :=
  ⟨_, _, rfl, rfl⟩

/-- Claim C7 witness: the amended theorem applied to a duplicate-free
recipient list on a concrete store. -/
theorem send_message_distinct_recipient_pairs_witness :
    findUser storeAB 1 = some uA ∧ mdA2B.recipient_ids ≠ [] ∧
    (∀ rid ∈ mdA2B.recipient_ids, (findUser storeAB rid).isSome = true) ∧
    mdA2B.recipient_ids.Nodup ∧
    (∀ row ∈ storeAB.recipients, row.message_id ≠ 100) ∧
    ∃ msg db2,
      create_message 0 100 (fun i => 200 + i) mdA2B storeAB = Except.ok (msg, db2) ∧
      ∀ rid, (db2.recipients.filter
        (fun row => row.message_id == 100 && row.recipient_id == rid)).length ≤ 1 :=
  ⟨rfl, by decide, by decide, by decide, by decide,
   send_message_distinct_recipient_pairs storeAB 0 100 (fun i => 200 + i) mdA2B uA
     rfl (by decide) (by decide) (by decide) (by decide)⟩

/-- Claim C8 witness: the theorem applied to user 1 of a concrete store
with two unread inbox rows. -/
theorem unread_inbox_exact_witness :
    findUser storeTwoInbox 1 = some uA ∧
    ∃ items, get_unread_inbox_messages storeTwoInbox 1 = Except.ok items ∧
      ∀ it, it ∈ items ↔ ∃ m r, m ∈ storeTwoInbox.messages ∧
        r ∈ storeTwoInbox.recipients ∧ r.message_id = m.id ∧ r.recipient_id = 1 ∧
        r.read = false ∧ it = mkInboxItem storeTwoInbox m r :=
  ⟨rfl, unread_inbox_exact storeTwoInbox 1 uA rfl⟩

/-- Claim C9 witness: the theorem applied to user 1 of a store with no
recipient rows. -/
theorem inbox_empty_returns_none_witness :
    findUser storeAB 1 = some uA ∧
    (∀ r ∈ storeAB.recipients, r.recipient_id ≠ 1) ∧
    (get_inbox_messages storeAB 1 = Except.ok none ∧
     get_unread_inbox_messages storeAB 1 = Except.ok []) :=
  ⟨rfl, by decide, inbox_empty_returns_none storeAB 1 uA rfl (by decide)⟩

/-- Claim C10 witness: the theorem applied to message 10 of a concrete
store. -/
theorem recipients_of_exact_witness :
    storeMsg.messages.find? (fun m => m.id == 10) = some mHi ∧
    ∃ res, get_message_recipient storeMsg 10 = Except.ok res ∧
      ∀ e, e ∈ res ↔ ∃ r u, r ∈ storeMsg.recipients ∧ u ∈ storeMsg.users ∧
        r.recipient_id = u.id ∧ r.message_id = 10 ∧
        e = { recipient_entry_id := r.id, recipient_id := u.id,
              recipient_name := u.name, recipient_email := u.email,
              read := r.read, read_at := r.read_at } :=
  ⟨rfl, recipients_of_exact storeMsg 10 mHi rfl⟩
